import Mathlib

/-!
Verification of the LearnX notification engine (src/trigger/notify.ts,
src/lib/notify-service.ts, src/lib/email-template.ts) against its
specification.  The relational store is modelled as lists of rows; each
trigger task is translated into a pure function from the database, the
delivery environment and the task payload to an Except value: a thrown
error becomes .error, a normal completion becomes .ok carrying the
per-recipient dispatch outcomes.
-/

/-- A row of the users table: SELECT id, name, email. -/
structure UserRow where
  id : String
  name : Option String
  email : Option String
deriving DecidableEq

/-- A row of the groups table. -/
structure GroupRow where
  id : Nat
  name : Option String
deriving DecidableEq

/-- A row of the group-members table: (group_id, user_id, role). -/
structure GroupMemberRow where
  groupId : Nat
  userId : String
  role : String
deriving DecidableEq

/-- A row of the courses table. -/
structure CourseRow where
  id : Nat
  name : Option String
deriving DecidableEq

/-- A row of the course_managers table: (course_id, user_id). -/
structure CourseManagerRow where
  courseId : Nat
  userId : String
deriving DecidableEq

/-- A row of the course-runs table: id, name, course_id, group_id, end_date. -/
structure RunRow where
  id : Nat
  name : Option String
  courseId : Nat
  groupId : Option Nat
  endDate : Option String
deriving DecidableEq

/-- The result of JSON.parse(activity.payload or an empty object) followed by
reading the title property: the parse either throws (malformed) or yields an
object whose title is absent or a string. -/
inductive ActivityPayload
  | malformed
  | parsed (title : Option String)
deriving DecidableEq

/-- A row of the activities table: id, type, payload. -/
structure ActivityRow where
  id : Nat
  type : String
  payload : ActivityPayload
deriving DecidableEq

/-- A row of the course-activities join table: id, activity_id, course_id. -/
structure CourseActivityRow where
  id : Nat
  activityId : Nat
  courseId : Nat
deriving DecidableEq

/-- A row of assignment_submissions keyed by (activity_id, course_run_id, user_id). -/
structure AssignmentSubmissionRow where
  activityId : Nat
  courseRunId : Nat
  userId : String
deriving DecidableEq

/-- A row of quiz-attempts; completed_at is nullable. -/
structure QuizAttemptRow where
  activityId : Nat
  courseRunId : Nat
  userId : String
  completedAt : Option String
deriving DecidableEq

/-- A row of exam_submissions; submitted_at is nullable. -/
structure ExamSubmissionRow where
  activityId : Nat
  courseRunId : Nat
  userId : String
  submittedAt : Option String
deriving DecidableEq

/-- The external relational store as seen by the notification engine. -/
structure Db where
  users : List UserRow
  groups : List GroupRow
  groupMembers : List GroupMemberRow
  courses : List CourseRow
  courseManagers : List CourseManagerRow
  courseRuns : List RunRow
  activities : List ActivityRow
  courseActivities : List CourseActivityRow
  assignmentSubmissions : List AssignmentSubmissionRow
  quizAttempts : List QuizAttemptRow
  examSubmissions : List ExamSubmissionRow

/-- JavaScript truthiness of a nullable string: null, undefined and the empty
string are falsy. -/
def truthyS : Option String → Option String
  | none => none
  | some s => if s = "" then none else some s

/-- JavaScript truthiness of a nullable number: null, undefined and 0 are falsy. -/
def truthyN : Option Nat → Option Nat
  | none => none
  | some n => if n = 0 then none else some n

/-- student.name or the empty string (the "name || empty" pattern of the push bodies). -/
def orEmpty : Option String → String
  | none => ""
  | some s => s

/-- The payload-title block repeated in every activity-bearing task:
let parsed = JSON.parse(activity.payload or empty); const activityName =
parsed.title; throw on a parse failure, throw when the title is falsy. -/
def parseTitle : ActivityPayload → Except String String
  | .malformed => .error "Failed to parse activity payload"
  | .parsed t =>
    match truthyS t with
    | none => .error "Activity title not found in payload"
    | some name => .ok name

/-- The activity resolution join: FROM course-activities ca JOIN activities a
ON a.id = ca.activity_id JOIN courses c ON ca.course_id = c.id WHERE ca.id = $1
(first row, none when the join yields no row). -/
def caJoin (db : Db) (caId : Nat) :
    Option (CourseActivityRow × ActivityRow × CourseRow) :=
  (db.courseActivities.find? fun ca => ca.id = caId).bind fun ca =>
  (db.activities.find? fun a => a.id = ca.activityId).bind fun a =>
  (db.courses.find? fun c => c.id = ca.courseId).map fun c => (ca, a, c)

/-- The resolution join of notifyScorePublished, notifyActivityPosted,
notifyMissedDeadline and notifyFacilitatorPostDeadlineSummary: the caJoin
extended by JOIN course-runs cr ON cr.id = $2 JOIN groups g ON cr.group_id =
g.id.  The run is joined only on its own id; nothing constrains cr.course_id
to equal ca.course_id. -/
def caRunJoin (db : Db) (caId runId : Nat) :
    Option (CourseActivityRow × ActivityRow × CourseRow × RunRow × GroupRow) :=
  (caJoin db caId).bind fun cac =>
  (db.courseRuns.find? fun r => r.id = runId).bind fun run =>
  (run.groupId.bind fun gid => db.groups.find? fun g => g.id = gid).map fun g =>
    (cac.1, cac.2.1, cac.2.2, run, g)

/-- A recipient row as selected by the two recipient queries: u.id, u.name. -/
structure UserRef where
  id : String
  name : Option String
deriving DecidableEq

/-- SELECT u.id, u.name FROM group-members gm JOIN users u ON gm.user_id = u.id
WHERE gm.group_id = $1 AND gm.role = student: the single recipient query of
every run-scoped student notification. -/
def studentsOfGroup (db : Db) (groupId : Nat) : List UserRef :=
  (db.groupMembers.filter fun gm => gm.groupId = groupId ∧ gm.role = "student").filterMap
    fun gm => (db.users.find? fun u => u.id = gm.userId).map fun u =>
      { id := u.id, name := u.name }

/-- SELECT u.id, u.name FROM course_managers cm JOIN users u ON cm.user_id =
u.id WHERE cm.course_id = $1: the single recipient query of every course-scoped
manager notification. -/
def managersOfCourse (db : Db) (courseId : Nat) : List UserRef :=
  (db.courseManagers.filter fun cm => cm.courseId = courseId).filterMap
    fun cm => (db.users.find? fun u => u.id = cm.userId).map fun u =>
      { id := u.id, name := u.name }

/-- The activity-type gate shared by the schedule-phase tasks and the
submitted-id computation: quiz, assignment and exam are the graded types. -/
def isGradedType (t : String) : Bool :=
  t = "quiz" || t = "assignment" || t = "exam"

/-- The submitted-id block shared by notifyMissedDeadline and
notifyFacilitatorPostDeadlineSummary: exactly one submission source is queried,
selected by the activity type (SELECT DISTINCT user_id keyed by activity_id
and course_run_id).  Faithful to notify.ts: the quiz branch carries no
completed_at filter, while the exam branch filters submitted_at IS NOT NULL. -/
def submittedIdsFor (db : Db) (atype : String) (activityId runId : Nat) : List String :=
  if atype = "assignment" then
    ((db.assignmentSubmissions.filter fun s =>
        s.activityId = activityId ∧ s.courseRunId = runId).map fun s => s.userId).dedup
  else if atype = "quiz" then
    ((db.quizAttempts.filter fun a =>
        a.activityId = activityId ∧ a.courseRunId = runId).map fun a => a.userId).dedup
  else if atype = "exam" then
    ((db.examSubmissions.filter fun e =>
        e.activityId = activityId ∧ e.courseRunId = runId ∧ e.submittedAt.isSome).map
      fun e => e.userId).dedup
  else []

/-- The delivery gateways' per-user behaviour (web-push send and zeptomail
send are external collaborators): true means the gateway call throws. -/
structure Env where
  pushFails : String → Bool
  emailFails : String → Bool

/-- A push payload as handed to NotificationService.sendPushNotification. -/
structure PushPayload where
  title : String
  body : String
deriving DecidableEq

/-- The four content fields produced by an emailTemplates builder. -/
structure EmailTemplate where
  subject : String
  heading : String
  subheading : String
  body : String
deriving DecidableEq

/-- What sendZeptoMail receives: the recipient address and the two content
arguments of NotificationService.sendEmailNotification(userId, subject, body). -/
structure MailSend where
  toAddr : String
  subject : String
  body : String
deriving DecidableEq

/-- The email-address precondition of sendEmailNotification: SELECT email FROM
users WHERE id = $1; a falsy email is a silent skip, not a failure. -/
def emailTarget (db : Db) (userId : String) : Option String :=
  truthyS ((db.users.find? fun u => u.id = userId).bind fun u => u.email)

/-- The mail handed to the zeptomail gateway by sendEmailNotification(userId,
subject, body): none when the user has no email address. -/
def emailAttempt (db : Db) (userId subject body : String) : Option MailSend :=
  (emailTarget db userId).map fun e => { toAddr := e, subject := subject, body := body }

/-- Whether the email channel attempt settles successfully: a silent skip is a
success, otherwise the gateway outcome decides. -/
def emailDeliveryOk (db : Db) (env : Env) (userId : String) : Bool :=
  match emailTarget db userId with
  | none => true
  | some _ => !(env.emailFails userId)

/-- The outcome recorded for one recipient of a fan-out: the push payload
handed to sendPushNotification, the mail handed to the email gateway, and the
settled success of each channel. -/
structure RecipientOutcome where
  userId : String
  push : PushPayload
  pushOk : Bool
  email : Option MailSend
  emailOk : Bool
deriving DecidableEq

/-- One iteration of the per-recipient fan-out body used by every task in
notify.ts: try push, catch and log; try email, catch and log — a failure on
either channel is recorded, never propagated.  Every call site of
sendEmailNotification passes five arguments (userId, template.subject,
template.heading, template.subheading, template.body), but the service
signature in notify-service.ts is (userId, subject, body): the third argument
binds the body parameter and the last two are discarded, so the gateway
receives the template subject and, as the mail body, the template heading. -/
def notifyOne (db : Db) (env : Env) (uid : String) (p : PushPayload)
    (t : EmailTemplate) : RecipientOutcome :=
  { userId := uid
    push := p
    pushOk := !(env.pushFails uid)
    email := emailAttempt db uid t.subject t.heading
    emailOk := emailDeliveryOk db env uid }

/-- The env-independent part of a recipient outcome: who was notified and with
what content; only the settled ok flags are dropped. -/
def RecipientOutcome.content (r : RecipientOutcome) :
    String × PushPayload × Option MailSend :=
  (r.userId, r.push, r.email)

/-- The env-independent view of a whole task invocation. -/
def contentOf (x : Except String (List RecipientOutcome)) :
    Except String (List (String × PushPayload × Option MailSend)) :=
  x.map (List.map RecipientOutcome.content)

/-- emailTemplates.deadlineSoon from email-template.ts. -/
def emailTemplates.deadlineSoon (activityName runName deadline : String) : EmailTemplate :=
  { subject := "Upcoming Activity Deadline"
    heading := "Your Activity is Due Soon"
    subheading := "Submit before the deadline to stay on track."
    body := "<p style=\"margin-bottom: 15px;\">Hello,</p>\n<p style=\"margin-bottom: 15px;\">Your activity <strong>" ++ activityName ++ "</strong> for <strong>" ++ runName ++ "</strong> is due on <strong>" ++ deadline ++ "</strong>.</p>\n<p>Please ensure you submit it before the deadline.</p>" }

/-- emailTemplates.adminDeadline from email-template.ts. -/
def emailTemplates.adminDeadline (activityName runName deadline : String) : EmailTemplate :=
  { subject := "Upcoming Deadline in Your Course Run"
    heading := "Activity Deadline Approaching"
    subheading := "Monitor learner progress closely."
    body := "<p style=\"margin-bottom: 15px;\">Hello,</p>\n<p style=\"margin-bottom: 15px;\">The activity <strong>" ++ activityName ++ "</strong> in <strong>" ++ runName ++ "</strong> is due in 30 minutes (at <strong>" ++ deadline ++ "</strong>).</p>\n<p>Please ensure learners are on track.</p>" }

/-- emailTemplates.scorePublished from email-template.ts. -/
def emailTemplates.scorePublished (activityName runName : String) : EmailTemplate :=
  { subject := "Your Score is Now Available"
    heading := "Score Published for Your Activity"
    subheading := "Review your performance in the course."
    body := "<p style=\"margin-bottom: 15px;\">Hello,</p>\n<p style=\"margin-bottom: 15px;\">Your score for <strong>" ++ activityName ++ "</strong> in <strong>" ++ runName ++ "</strong> has been published.</p>\n<p style=\"margin-bottom: 15px; font-weight: bold;\">How to check your score:</p>\n<ol><li>Go to the home page.</li><li>Select the <strong>Grades</strong> option in the sidebar.</li><li>Choose the appropriate course run.</li><li>Find the <strong>" ++ activityName ++ "</strong> in the list to view your score.</li></ol>" }

/-- emailTemplates.activityPosted from email-template.ts. -/
def emailTemplates.activityPosted (activityName runName : String) : EmailTemplate :=
  { subject := "New Activity Available in Your Course Run"
    heading := "A New Activity Awaits You"
    subheading := "Stay on track and keep learning."
    body := "<p style=\"margin-bottom: 15px;\">Hello,</p>\n<p style=\"margin-bottom: 15px;\">A new activity <strong>" ++ activityName ++ "</strong> has been added to <strong>" ++ runName ++ "</strong>.</p>\n<p>Visit your dashboard to check it out and continue your learning journey.</p>" }

/-- emailTemplates.addedToGroup from email-template.ts. -/
def emailTemplates.addedToGroup (groupName : String) : EmailTemplate :=
  { subject := "You've Been Added to a Group"
    heading := "Group Access Granted"
    subheading := "Stay organized with your course activities."
    body := "<p style=\"margin-bottom: 15px;\">Hello,</p>\n<p style=\"margin-bottom: 15px;\">You've been added to the group <strong>" ++ groupName ++ "</strong>.</p>\n<p>Visit your dashboard to view group details.</p>" }

/-- emailTemplates.newDocument from email-template.ts. -/
def emailTemplates.newDocument (documentName courseName : String) : EmailTemplate :=
  { subject := "New Document Available in Your Course"
    heading := "A New Resource Has Been Shared"
    subheading := "Access the latest material for your course."
    body := "<p style=\"margin-bottom: 15px;\">Hello,</p>\n<p style=\"margin-bottom: 15px;\">A new document <strong>" ++ documentName ++ "</strong> has been added to <strong>" ++ courseName ++ "</strong>.</p>\n<p>Visit your dashboard to review it.</p>" }

/-- emailTemplates.redoEnabled from email-template.ts. -/
def emailTemplates.redoEnabled (activityName deadline courseInfo : String) : EmailTemplate :=
  { subject := "Redo Enabled for Your Activity"
    heading := "You Can Redo Your Activity"
    subheading := "A new chance to complete your work."
    body := "<p style=\"margin-bottom: 15px;\">Hello,</p>\n<p style=\"margin-bottom: 10px;\">Redo has been enabled for <strong>" ++ activityName ++ "</strong>.</p>\n<p style=\"margin-bottom: 15px;\">Your new submission deadline is <strong>" ++ deadline ++ "</strong>.</p>\n<p>Please go through the <strong>" ++ courseInfo ++ "</strong> and submit your response.</p>" }

/-- emailTemplates.missedDeadline from email-template.ts. -/
def emailTemplates.missedDeadline (activityName runName : String) : EmailTemplate :=
  { subject := "Missed Deadline Notification"
    heading := "You Missed a Deadline"
    subheading := "Please contact your instructor for next steps."
    body := "<p style=\"margin-bottom: 15px;\">Hello,</p>\n<p style=\"margin-bottom: 15px;\">You missed the deadline for <strong>" ++ activityName ++ "</strong> in <strong>" ++ runName ++ "</strong>.</p>\n<p>Please reach out to your instructor for guidance on how to proceed.</p>" }

/-- emailTemplates.facilitatorSummary from email-template.ts. -/
def emailTemplates.facilitatorSummary (activityName runName : String)
    (submitted notSubmitted : Nat) : EmailTemplate :=
  { subject := "Post-Deadline Summary for Your Course Run"
    heading := "Activity Deadline Summary"
    subheading := "Review student submission status."
    body := "<p style=\"margin-bottom: 15px;\">Hello,</p>\n<p style=\"margin-bottom: 15px;\">The deadline for <strong>" ++ activityName ++ "</strong> in <strong>" ++ runName ++ "</strong> has passed.</p>\n<p style=\"margin-bottom: 15px;\"><strong>Submission Summary:</strong></p>\n<ul><li>Students who submitted: <strong>" ++ toString submitted ++ "</strong></li><li>Students who did not submit: <strong>" ++ toString notSubmitted ++ "</strong></li></ul>\n<p>Please review and take necessary actions.</p>" }

/-- emailTemplates.courseRunFinalize from email-template.ts. -/
def emailTemplates.courseRunFinalize (courseName runName endDate : String) : EmailTemplate :=
  { subject := "Course Run Ending Soon - Action Required"
    heading := "Time to Finalize Your Course Run"
    subheading := "Ensure all grading is completed."
    body := "<p style=\"margin-bottom: 15px;\">Hello,</p>\n<p style=\"margin-bottom: 15px;\">The course run <strong>" ++ runName ++ "</strong> for <strong>" ++ courseName ++ "</strong> is ending on <strong>" ++ endDate ++ "</strong>.</p>\n<p>Please ensure all activities are graded and finalized before the end date.</p>" }

/-- The fire task send-student-deadline-notification: resolve the activity, the
title, the run and its group, then fan out to the students of that group. -/
def sendStudentDeadlineNotification (db : Db) (env : Env)
    (courseActivityId runId : Nat) (deadline : String) :
    Except String (List RecipientOutcome) :=
  match caJoin db courseActivityId with
  | none => .error "Activity not found for courseActivityId"
  | some (_ca, a, _c) =>
    match parseTitle a.payload with
    | .error e => .error e
    | .ok activityName =>
      let run? := db.courseRuns.find? fun r => r.id = runId
      match truthyN (run?.bind fun r => r.groupId) with
      | none => .error "Group not found for runId"
      | some groupId =>
        match truthyS (run?.bind fun r => r.name) with
        | none => .error "Run name not found for runId"
        | some runName =>
          .ok ((studentsOfGroup db groupId).map fun s =>
            notifyOne db env s.id
              { title := "Assignment \"" ++ activityName ++ "\" is due soon in \"" ++ runName ++ "\""
                body := "Hi " ++ orEmpty s.name ++ ", your assignment \"" ++ activityName ++ "\" for \"" ++ runName ++ "\" is due at " ++ deadline ++ ". Please make sure to submit before the deadline!" }
              (emailTemplates.deadlineSoon activityName runName deadline))

/-- The fire task send-manager-deadline-warning: resolve the activity, the
title, the course and the run name, then fan out to the managers of the
activity's course (an empty manager set is a logged no-op). -/
def sendManagerDeadlineWarning (db : Db) (env : Env)
    (courseActivityId runId : Nat) (deadline : String) :
    Except String (List RecipientOutcome) :=
  match caJoin db courseActivityId with
  | none => .error "Activity not found for courseActivityId"
  | some (_ca, a, c) =>
    match parseTitle a.payload with
    | .error e => .error e
    | .ok activityName =>
      match truthyN (some c.id) with
      | none => .error "Course ID not found for courseActivityId"
      | some courseId =>
        match truthyS ((db.courseRuns.find? fun r => r.id = runId).bind fun r => r.name) with
        | none => .error "Run name not found for runId"
        | some runName =>
          let managers := managersOfCourse db courseId
          if managers.isEmpty then .ok []
          else
            .ok (managers.map fun m =>
              notifyOne db env m.id
                { title := "Upcoming deadline for \"" ++ activityName ++ "\" in \"" ++ runName ++ "\""
                  body := "Hi " ++ orEmpty m.name ++ ", the activity \"" ++ activityName ++ "\" in \"" ++ runName ++ "\" is due in 30 minutes (at " ++ deadline ++ ")." }
                (emailTemplates.adminDeadline activityName runName deadline))

/-- The fire task notify-score-published: resolve via the caRunJoin, then fan
out to the students of the run's group (an empty student set is a logged
no-op). -/
def notifyScorePublished (db : Db) (env : Env) (courseActivityId runId : Nat) :
    Except String (List RecipientOutcome) :=
  match caRunJoin db courseActivityId runId with
  | none => .error "Activity data not found for courseActivityId, runId"
  | some (_ca, a, _c, run, _g) =>
    match parseTitle a.payload with
    | .error e => .error e
    | .ok activityName =>
      match truthyS run.name with
      | none => .error "Run name not found for runId"
      | some runName =>
        match truthyN run.groupId with
        | none => .error "Group not found for runId"
        | some groupId =>
          let students := studentsOfGroup db groupId
          if students.isEmpty then .ok []
          else
            .ok (students.map fun s =>
              notifyOne db env s.id
                { title := "Score Published: " ++ activityName
                  body := "Hi " ++ orEmpty s.name ++ ", your score for \"" ++ activityName ++ "\" in \"" ++ runName ++ "\" has been published. Check your mail for more details!" }
                (emailTemplates.scorePublished activityName runName))

/-- The fire task notify-activity-posted: resolve via the caRunJoin, then fan
out to the students of the run's group. -/
def notifyActivityPosted (db : Db) (env : Env) (courseActivityId runId : Nat) :
    Except String (List RecipientOutcome) :=
  match caRunJoin db courseActivityId runId with
  | none => .error "Activity data not found for courseActivityId, runId"
  | some (_ca, a, _c, run, _g) =>
    match parseTitle a.payload with
    | .error e => .error e
    | .ok activityName =>
      match truthyS run.name with
      | none => .error "Run name not found for runId"
      | some runName =>
        match truthyN run.groupId with
        | none => .error "Group not found for runId"
        | some groupId =>
          .ok ((studentsOfGroup db groupId).map fun s =>
            notifyOne db env s.id
              { title := "New Activity: " ++ activityName
                body := "Hi " ++ orEmpty s.name ++ ", a new activity \"" ++ activityName ++ "\" has been added to \"" ++ runName ++ "\". Check it out!" }
              (emailTemplates.activityPosted activityName runName))

/-- The fire task notify-redo-enabled, a single-recipient kind.  A missing
course-activity (or course) row in the first lookup is logged via
console.error and the task RETURNS NORMALLY with no dispatch; every later
resolution failure (missing activity, malformed payload, missing title,
missing course name, missing user) throws.  A missing run is not an error
here: courseInfo falls back to the course name. -/
def notifyRedoEnabled (db : Db) (env : Env) (fmtIST : String → String)
    (userId : String) (courseActivityId : Nat) (newDeadline : String) (runId : Nat) :
    Except String (List RecipientOutcome) :=
  match (db.courseActivities.find? fun ca => ca.id = courseActivityId).bind
      (fun ca => (db.courses.find? fun c => c.id = ca.courseId).map fun c => (ca, c)) with
  | none => .ok []
  | some (_ca0, _c0) =>
    match caJoin db courseActivityId with
    | none => .error "Activity not found for courseActivityId"
    | some (_ca, a, c) =>
      match parseTitle a.payload with
      | .error e => .error e
      | .ok activityName =>
        match truthyS c.name with
        | none => .error "Course name not found for activityId"
        | some courseName =>
          let runName? := truthyS ((db.courseRuns.find? fun r => r.id = runId).bind fun r => r.name)
          match truthyS ((db.users.find? fun u => u.id = userId).bind fun u => u.name) with
          | none => .error "User not found for userId"
          | some userName =>
            let formatted := fmtIST newDeadline
            let courseInfo :=
              match runName? with
              | some rn => rn
              | none => courseName
            .ok [notifyOne db env userId
              { title := "Redo enabled for \"" ++ activityName ++ "\" in \"" ++ courseInfo ++ "\""
                body := "Hi " ++ userName ++ ", redo for activity \"" ++ activityName ++ "\" is enabled. New deadline: " ++ newDeadline ++ "." }
              (emailTemplates.redoEnabled activityName formatted courseInfo)]

/-- The fire task notify-student-added-to-group, a single-recipient kind: the
user and the group are re-validated (the group lookup is a LEFT JOIN onto
runs and courses, so only the group row itself is required). -/
def notifyStudentOnAddedToGroup (db : Db) (env : Env)
    (userId : String) (groupId : Nat) : Except String (List RecipientOutcome) :=
  match db.users.find? fun u => u.id = userId with
  | none => .error "Student not found for userId"
  | some student =>
    match db.groups.find? fun g => g.id = groupId with
    | none => .error "Group not found for groupId"
    | some g =>
      match truthyS g.name with
      | none => .error "Group name not found for groupId"
      | some groupName =>
        .ok [notifyOne db env student.id
          { title := "You've been added to group: " ++ groupName
            body := "Hi " ++ orEmpty student.name ++ ", you have been added to group \"" ++ groupName ++ "\". Check your dashboard for details!" }
          (emailTemplates.addedToGroup groupName)]

/-- The two halves of a notify-new-document-added dispatch. -/
structure DocOutcome where
  students : List RecipientOutcome
  managers : List RecipientOutcome
deriving DecidableEq

/-- The fire task notify-new-document-added: resolve the run and its course,
then fan out to the students of the run's group and to the managers of the
run's course.  (The source's early return when both recipient lists are empty
dispatches nothing, which coincides with mapping over two empty lists.) -/
def notifyNewDocumentAdded (db : Db) (env : Env) (runId : Nat)
    (documentName : String) : Except String DocOutcome :=
  match (db.courseRuns.find? fun r => r.id = runId).bind
      (fun run => (db.courses.find? fun c => c.id = run.courseId).map fun c => (run, c)) with
  | none => .error "Course run not found for runId"
  | some (run, c) =>
    match truthyN run.groupId, truthyN (some run.courseId) with
    | some groupId, some courseId =>
      match truthyS c.name with
      | none => .error "Course name not found for runId"
      | some courseName =>
        .ok { students := (studentsOfGroup db groupId).map fun s =>
                notifyOne db env s.id
                  { title := "New Document Added: " ++ documentName
                    body := "Hi " ++ orEmpty s.name ++ ", a new document \"" ++ documentName ++ "\" has been added to your course. Check it out!" }
                  (emailTemplates.newDocument documentName courseName)
              managers := (managersOfCourse db courseId).map fun m =>
                notifyOne db env m.id
                  { title := "New Document Added: " ++ documentName
                    body := "Hi " ++ orEmpty m.name ++ ", a new document \"" ++ documentName ++ "\" has been added to your course." }
                  (emailTemplates.newDocument documentName courseName) }
    | _, _ => .error "Group or Course not found for runId"

/-- The observable outcome of a notify-missed-deadline invocation: whether a
submission table was queried at all, and the per-recipient dispatch. -/
structure MissedOutcome where
  submissionQueried : Bool
  recipients : List RecipientOutcome
deriving DecidableEq

/-- The fire task notify-missed-deadline: resolve via the caRunJoin; an empty
student set short-circuits BEFORE any submission query; otherwise the
submitted-id set is read from the single source selected by the activity type
and the fan-out goes to the group students whose id is not in it. -/
def notifyMissedDeadline (db : Db) (env : Env)
    (courseActivityId runId : Nat) (_deadline : String) :
    Except String MissedOutcome :=
  match caRunJoin db courseActivityId runId with
  | none => .error "Activity data not found for courseActivityId, runId"
  | some (_ca, a, _c, run, _g) =>
    match parseTitle a.payload with
    | .error e => .error e
    | .ok activityName =>
      match truthyS run.name with
      | none => .error "Run name not found for runId"
      | some runName =>
        match truthyN run.groupId with
        | none => .error "Group not found for runId"
        | some groupId =>
          let students := studentsOfGroup db groupId
          if students.isEmpty then
            .ok { submissionQueried := false, recipients := [] }
          else
            let submittedIds := submittedIdsFor db a.type a.id runId
            let studentsToNotify := students.filter fun s => !(submittedIds.contains s.id)
            .ok { submissionQueried := isGradedType a.type
                  recipients := studentsToNotify.map fun s =>
                    notifyOne db env s.id
                      { title := "Missed Deadline: " ++ activityName
                        body := "Hi " ++ orEmpty s.name ++ ", you missed the deadline for \"" ++ activityName ++ "\" in \"" ++ runName ++ "\". Please check with your facilitator for next steps." }
                      (emailTemplates.missedDeadline activityName runName) }

/-- The observable outcome of a notify-facilitator-post-deadline-summary
invocation: the (submitted, notSubmitted) counts when they were computed, and
the per-recipient dispatch to the course managers. -/
structure SummaryOutcome where
  counts : Option (Nat × Nat)
  recipients : List RecipientOutcome
deriving DecidableEq

/-- The fire task notify-facilitator-post-deadline-summary: resolve via the
caRunJoin; an empty student set short-circuits; otherwise submitted is the
number of group-student ids found in the submitted-id set, notSubmitted the
remainder, and the fan-out goes to the managers of the activity's course. -/
def notifyFacilitatorPostDeadlineSummary (db : Db) (env : Env)
    (courseActivityId runId : Nat) (_deadline : String) :
    Except String SummaryOutcome :=
  match caRunJoin db courseActivityId runId with
  | none => .error "Activity data not found for courseActivityId, runId"
  | some (_ca, a, c, run, _g) =>
    match parseTitle a.payload with
    | .error e => .error e
    | .ok activityName =>
      match truthyS run.name with
      | none => .error "Run name not found for runId"
      | some runName =>
        match truthyN run.groupId, truthyN (some c.id) with
        | some groupId, some courseId =>
          let studentIds := (studentsOfGroup db groupId).map fun s => s.id
          if studentIds.isEmpty then .ok { counts := none, recipients := [] }
          else
            let submittedIds := submittedIdsFor db a.type a.id runId
            let submitted := (studentIds.filter fun i => submittedIds.contains i).length
            let notSubmitted := studentIds.length - submitted
            let facilitators := managersOfCourse db courseId
            if facilitators.isEmpty then
              .ok { counts := some (submitted, notSubmitted), recipients := [] }
            else
              .ok { counts := some (submitted, notSubmitted)
                    recipients := facilitators.map fun f =>
                      notifyOne db env f.id
                        { title := "Graded activity deadline passed: " ++ activityName ++ " "
                          body := "Activity \"" ++ activityName ++ "\" in \"" ++ runName ++ "\" deadline passed.Submitted: " ++ toString submitted ++ ", Not submitted: " ++ toString notSubmitted ++ " " }
                        (emailTemplates.facilitatorSummary activityName runName submitted notSubmitted) }
        | _, _ => .error "Group or Course not found for courseActivityId, runId"

/-- The resolution join of notifyFacilitatorEndOfCourseRunFinalize: FROM
course-runs cr JOIN courses c ON cr.course_id = c.id JOIN groups g ON
cr.group_id = g.id WHERE cr.id = $1. -/
def runCourseGroupJoin (db : Db) (runId : Nat) :
    Option (RunRow × CourseRow × GroupRow) :=
  (db.courseRuns.find? fun r => r.id = runId).bind fun run =>
  (db.courses.find? fun c => c.id = run.courseId).bind fun c =>
  (run.groupId.bind fun gid => db.groups.find? fun g => g.id = gid).map fun g =>
    (run, c, g)

/-- The fire task notify-facilitator-end-of-course-run-finalize: resolve the
run, its course and its group, then fan out to the managers of the run's
course (an empty manager set is a no-op). -/
def notifyFacilitatorEndOfCourseRunFinalize (db : Db) (env : Env)
    (fmtDate : String → String) (courseRunId : Nat) :
    Except String (List RecipientOutcome) :=
  match runCourseGroupJoin db courseRunId with
  | none => .error "Course run not found for courseRunId"
  | some (run, c, _g) =>
    match truthyS run.name, truthyS c.name with
    | some runName, some courseName =>
      match truthyN (some c.id) with
      | none => .error "Course ID not found for courseRunId"
      | some courseId =>
        let endDate :=
          match truthyS run.endDate with
          | some d => fmtDate d
          | none => ""
        let facilitators := managersOfCourse db courseId
        if facilitators.isEmpty then .ok []
        else
          .ok (facilitators.map fun f =>
            notifyOne db env f.id
              { title := "Course run finalized: " ++ runName
                body := "The course run \"" ++ runName ++ "\" for course \"" ++ courseName ++ "\" has been finalized. Please check the dashboard for details." }
              (emailTemplates.courseRunFinalize courseName runName endDate))
    | _, _ => .error "Course run or course name not found for courseRunId"

/-- The payload of a fire task registered with the external scheduler by a
schedule-phase task. -/
structure TriggerReq where
  courseActivityId : Nat
  runId : Nat
  deadline : String
deriving DecidableEq

/-- The schedule task schedule-student-deadline-notification: look up the
activity type through the course-activity join; a non-graded type is a logged
skip (ok with no trigger), a graded type registers the fire task with the
formatted deadline. -/
def scheduleStudentDeadlineNotification (db : Db) (fmtIST : String → String)
    (courseActivityId runId : Nat) (deadline : String) :
    Except String (Option TriggerReq) :=
  match (db.courseActivities.find? fun ca => ca.id = courseActivityId).bind
      (fun ca => db.activities.find? fun a => a.id = ca.activityId) with
  | none => .error "Activity not found for courseActivityId"
  | some a =>
    if !(isGradedType a.type) then .ok none
    else .ok (some { courseActivityId := courseActivityId, runId := runId,
                     deadline := fmtIST deadline })

/-- The schedule task schedule-manager-deadline-warning: same activity-type
gate as the student variant. -/
def scheduleManagerDeadlineWarning (db : Db) (fmtIST : String → String)
    (courseActivityId runId : Nat) (deadline : String) :
    Except String (Option TriggerReq) :=
  match (db.courseActivities.find? fun ca => ca.id = courseActivityId).bind
      (fun ca => db.activities.find? fun a => a.id = ca.activityId) with
  | none => .error "Activity not found for courseActivityId"
  | some a =>
    if !(isGradedType a.type) then .ok none
    else .ok (some { courseActivityId := courseActivityId, runId := runId,
                     deadline := fmtIST deadline })

/-- The schedule task schedule-notify-missed-deadline: a LEFT JOIN, so a
missing course-activity row and a dangling activity reference throw distinct
errors; a non-graded type is a logged skip. -/
def scheduleNotifyMissedDeadline (db : Db) (fmtIST : String → String)
    (courseActivityId runId : Nat) (deadline : String) :
    Except String (Option TriggerReq) :=
  match db.courseActivities.find? fun ca => ca.id = courseActivityId with
  | none => .error "Course activity not found for courseActivityId"
  | some ca =>
    match (db.activities.find? fun a => a.id = ca.activityId).bind
        (fun a => truthyS (some a.type)) with
    | none => .error "Activity not found - course_activity references an activity that does not exist"
    | some atype =>
      if !(isGradedType atype) then .ok none
      else .ok (some { courseActivityId := courseActivityId, runId := runId,
                       deadline := fmtIST deadline })

/-- The schedule task schedule-notify-facilitator-post-deadline-summary: same
LEFT JOIN shape and activity-type gate as schedule-notify-missed-deadline. -/
def scheduleNotifyFacilitatorPostDeadlineSummary (db : Db) (fmtIST : String → String)
    (courseActivityId runId : Nat) (deadline : String) :
    Except String (Option TriggerReq) :=
  match db.courseActivities.find? fun ca => ca.id = courseActivityId with
  | none => .error "Course activity not found for courseActivityId"
  | some ca =>
    match (db.activities.find? fun a => a.id = ca.activityId).bind
        (fun a => truthyS (some a.type)) with
    | none => .error "Activity not found - course_activity references an activity that does not exist"
    | some atype =>
      if !(isGradedType atype) then .ok none
      else .ok (some { courseActivityId := courseActivityId, runId := runId,
                       deadline := fmtIST deadline })

/-- A concrete delivery environment in which every gateway call succeeds. -/
def envOk : Env := { pushFails := fun _ => false, emailFails := fun _ => false }

/-- A concrete stand-in for the external timezone/date formatters. -/
def fmtId : String → String := fun s => s

/-- Quiz fixture: one group student whose only quiz attempt has no completion
marker (completed_at is null). -/
def dbQ : Db :=
  { users := [{ id := "s1", name := some "Sam", email := some "sam@example.com" }]
    groups := [{ id := 1, name := some "Group 1" }]
    groupMembers := [{ groupId := 1, userId := "s1", role := "student" }]
    courses := [{ id := 1, name := some "Course 1" }]
    courseManagers := []
    courseRuns := [{ id := 1, name := some "Run 1", courseId := 1, groupId := some 1,
                     endDate := none }]
    activities := [{ id := 10, type := "quiz", payload := .parsed (some "Quiz 1") }]
    courseActivities := [{ id := 5, activityId := 10, courseId := 1 }]
    assignmentSubmissions := []
    quizAttempts := [{ activityId := 10, courseRunId := 1, userId := "s1",
                       completedAt := none }]
    examSubmissions := [] }

/-- Summary fixture: two group students; the assignment-submission rows for the
(activity, run) pair name one of them and one user outside the group. -/
def dbS : Db :=
  { users := [{ id := "s1", name := some "Ann", email := none },
              { id := "s2", name := some "Ben", email := none }]
    groups := [{ id := 1, name := some "G1" }]
    groupMembers := [{ groupId := 1, userId := "s1", role := "student" },
                     { groupId := 1, userId := "s2", role := "student" }]
    courses := [{ id := 3, name := some "C3" }]
    courseManagers := []
    courseRuns := [{ id := 3, name := some "Run 3", courseId := 3, groupId := some 1,
                     endDate := none }]
    activities := [{ id := 20, type := "assignment", payload := .parsed (some "HW") }]
    courseActivities := [{ id := 7, activityId := 20, courseId := 3 }]
    assignmentSubmissions := [{ activityId := 20, courseRunId := 3, userId := "s1" },
                              { activityId := 20, courseRunId := 3, userId := "sX" }]
    quizAttempts := []
    examSubmissions := [] }

def runW1 : RunRow :=
  { id := 1, name := some "Run 1", courseId := 2, groupId := some 1,
    endDate := some "2025-12-31" }

def runW9 : RunRow :=
  { id := 9, name := some "Run 9", courseId := 3, groupId := some 9,
    endDate := some "2025-06-30" }

def caW5 : CourseActivityRow := { id := 5, activityId := 10, courseId := 1 }

def caW6 : CourseActivityRow := { id := 6, activityId := 11, courseId := 1 }

def caW7 : CourseActivityRow := { id := 7, activityId := 12, courseId := 3 }

def caW8 : CourseActivityRow := { id := 8, activityId := 10, courseId := 3 }

def aW10 : ActivityRow := { id := 10, type := "assignment", payload := .parsed (some "Essay 1") }

def aW11 : ActivityRow := { id := 11, type := "article", payload := .parsed (some "Reading 1") }

def aW12 : ActivityRow := { id := 12, type := "quiz", payload := .parsed (some "Quiz 9") }

def cW1 : CourseRow := { id := 1, name := some "Programming" }

def cW2 : CourseRow := { id := 2, name := some "ML" }

def cW3 : CourseRow := { id := 3, name := some "Orphan" }

def gW1 : GroupRow := { id := 1, name := some "CS Batch" }

def gW2 : GroupRow := { id := 2, name := some "DS Batch" }

def gW9 : GroupRow := { id := 9, name := some "Empty Batch" }

/-- A richer fixture: group 1 holds students u1, u2 (u1 also sits in group 2
with a non-student role), group 2 holds u4, group 9 is empty; course 1 has
managers m1 and m2, course 2 has m1, course 3 has none; run 1 points at group
1 but carries course 2 while course-activity 5 carries course 1 (a run/course
mismatch); run 9 points at the empty group and the managerless course 3. -/
def dbW : Db :=
  { users := [{ id := "u1", name := some "Alice", email := some "a@x.com" },
              { id := "u2", name := some "Bob", email := none },
              { id := "u4", name := some "Diana", email := some "d@x.com" },
              { id := "m1", name := some "Sarah", email := some "s@x.com" },
              { id := "m2", name := some "Mike", email := some "m@x.com" }]
    groups := [gW1, gW2, gW9]
    groupMembers := [{ groupId := 1, userId := "u1", role := "student" },
                     { groupId := 1, userId := "u2", role := "student" },
                     { groupId := 2, userId := "u4", role := "student" },
                     { groupId := 2, userId := "u1", role := "mentor" }]
    courses := [cW1, cW2, cW3]
    courseManagers := [{ courseId := 1, userId := "m1" }, { courseId := 1, userId := "m2" },
                       { courseId := 2, userId := "m1" }]
    courseRuns := [runW1, runW9]
    activities := [aW10, aW11, aW12]
    courseActivities := [caW5, caW6, caW7, caW8]
    assignmentSubmissions := [{ activityId := 10, courseRunId := 1, userId := "u1" }]
    quizAttempts := []
    examSubmissions := [] }

theorem mem_studentsOfGroup (db : Db) (gid : Nat) (uid : String) :
    uid ∈ (studentsOfGroup db gid).map UserRef.id ↔
      ∃ gm ∈ db.groupMembers, gm.groupId = gid ∧ gm.role = "student" ∧ gm.userId = uid ∧
        ∃ u ∈ db.users, u.id = uid := by
  constructor
  · intro h
    simp only [studentsOfGroup, List.mem_map, List.mem_filterMap, List.mem_filter,
      Option.map_eq_some', decide_eq_true_eq] at h
    obtain ⟨ref, ⟨gm, ⟨hmem, hgid, hrole⟩, u, hfind, hu⟩, hid⟩ := h
    have hpu : u.id = gm.userId := by
      have := List.find?_some hfind
      simpa using this
    refine ⟨gm, hmem, hgid, hrole, ?_, u, List.mem_of_find?_eq_some hfind, ?_⟩
    · rw [← hid, ← hu]; exact hpu.symm
    · rw [← hid, ← hu]
  · rintro ⟨gm, hmem, hgid, hrole, huid, u, humem, huid2⟩
    have hex : ∃ x ∈ db.users, (fun v => decide (v.id = gm.userId)) x = true := by
      exact ⟨u, humem, by simp [huid2, huid]⟩
    rw [← List.find?_isSome] at hex
    obtain ⟨v, hv⟩ := Option.isSome_iff_exists.mp hex
    have hvid : v.id = gm.userId := by simpa using List.find?_some hv
    simp only [studentsOfGroup, List.mem_map, List.mem_filterMap, List.mem_filter,
      Option.map_eq_some', decide_eq_true_eq]
    exact ⟨⟨v.id, v.name⟩, ⟨gm, ⟨hmem, hgid, hrole⟩, v, hv, rfl⟩, by rw [hvid, huid]⟩

theorem mem_managersOfCourse (db : Db) (cid : Nat) (uid : String) :
    uid ∈ (managersOfCourse db cid).map UserRef.id ↔
      ∃ cm ∈ db.courseManagers, cm.courseId = cid ∧ cm.userId = uid ∧
        ∃ u ∈ db.users, u.id = uid := by
  constructor
  · intro h
    simp only [managersOfCourse, List.mem_map, List.mem_filterMap, List.mem_filter,
      Option.map_eq_some', decide_eq_true_eq] at h
    obtain ⟨ref, ⟨cm, hcm, u, hfind, hu⟩, hid⟩ := h
    have hpu : u.id = cm.userId := by
      have := List.find?_some hfind
      simpa using this
    exact ⟨cm, hcm.1, hcm.2, by rw [← hid, ← hu]; exact hpu.symm,
      u, List.mem_of_find?_eq_some hfind, by rw [← hid, ← hu]⟩
  · rintro ⟨cm, hmem, hcid, huid, u, humem, huid2⟩
    have hex : ∃ x ∈ db.users, (fun v => decide (v.id = cm.userId)) x = true := by
      exact ⟨u, humem, by simp [huid2, huid]⟩
    rw [← List.find?_isSome] at hex
    obtain ⟨v, hv⟩ := Option.isSome_iff_exists.mp hex
    have hvid : v.id = cm.userId := by simpa using List.find?_some hv
    simp only [managersOfCourse, List.mem_map, List.mem_filterMap, List.mem_filter,
      Option.map_eq_some', decide_eq_true_eq]
    exact ⟨⟨v.id, v.name⟩, ⟨cm, ⟨hmem, hcid⟩, v, hv, rfl⟩, by rw [hvid, huid]⟩

theorem caRunJoin_eq_some {db : Db} {caId runId : Nat}
    {ca : CourseActivityRow} {a : ActivityRow} {c : CourseRow} {run : RunRow} {g : GroupRow} :
    caRunJoin db caId runId = some (ca, a, c, run, g) ↔
      caJoin db caId = some (ca, a, c) ∧
      db.courseRuns.find? (fun r => r.id = runId) = some run ∧
      (run.groupId.bind fun gid => db.groups.find? fun g2 => g2.id = gid) = some g := by
  simp only [caRunJoin, Option.bind_eq_some, Option.map_eq_some']
  constructor
  · rintro ⟨⟨x, y, z⟩, hx, run', hrun', g', hg', heq⟩
    simp only [Prod.mk.injEq] at heq
    obtain ⟨h1, h2, h3, h4, h5⟩ := heq
    subst h1; subst h2; subst h3; subst h4; subst h5
    exact ⟨hx, hrun', hg'⟩
  · rintro ⟨hca, hrun, hg⟩
    exact ⟨(ca, a, c), hca, run, hrun, g, hg, rfl⟩

theorem sendStudentDeadline_inv {db : Db} {env : Env} {caId runId : Nat} {dl : String}
    {d : List RecipientOutcome}
    (h : sendStudentDeadlineNotification db env caId runId dl = .ok d) :
    ∃ gid, truthyN ((db.courseRuns.find? fun r => r.id = runId).bind fun r => r.groupId)
        = some gid ∧
      d.map RecipientOutcome.userId = (studentsOfGroup db gid).map UserRef.id := by
  simp only [sendStudentDeadlineNotification] at h
  repeat' split at h
  all_goals try exact Except.noConfusion h
  rename_i _x1 gid hg _x2 rn hn
  refine ⟨gid, hg, ?_⟩
  obtain rfl : _ = d := by simpa using h
  simp [List.map_map, notifyOne]

theorem truthyN_eq_some {o : Option Nat} {n : Nat} (h : truthyN o = some n) : o = some n := by
  cases o with
  | none => simp [truthyN] at h
  | some m =>
    simp only [truthyN] at h
    split at h
    · exact Option.noConfusion h
    · injection h with h; subst h; rfl

theorem notifyScorePublished_inv {db : Db} {env : Env} {caId runId : Nat}
    {d : List RecipientOutcome} (h : notifyScorePublished db env caId runId = .ok d) :
    ∃ run gid, db.courseRuns.find? (fun r => r.id = runId) = some run ∧
      truthyN run.groupId = some gid ∧
      d.map RecipientOutcome.userId = (studentsOfGroup db gid).map UserRef.id := by
  simp only [notifyScorePublished] at h
  cases hj : caRunJoin db caId runId with
  | none => simp [hj] at h
  | some t =>
    obtain ⟨ca, a, c, run, g⟩ := t
    simp only [hj] at h
    cases hp : parseTitle a.payload with
    | error e => simp [hp] at h
    | ok an =>
      simp only [hp] at h
      cases hn : truthyS run.name with
      | none => simp [hn] at h
      | some rn =>
        simp only [hn] at h
        cases hg : truthyN run.groupId with
        | none => simp [hg] at h
        | some gid =>
          simp only [hg] at h
          obtain ⟨-, hrun, -⟩ := caRunJoin_eq_some.mp hj
          refine ⟨run, gid, hrun, hg, ?_⟩
          by_cases he : (studentsOfGroup db gid).isEmpty
          · rw [if_pos he] at h
            obtain rfl : _ = d := Except.ok.inj h
            rw [List.isEmpty_iff.mp he]
            rfl
          · rw [if_neg he] at h
            obtain rfl : _ = d := Except.ok.inj h
            simp [List.map_map, notifyOne]

theorem notifyActivityPosted_inv {db : Db} {env : Env} {caId runId : Nat}
    {d : List RecipientOutcome} (h : notifyActivityPosted db env caId runId = .ok d) :
    ∃ run gid, db.courseRuns.find? (fun r => r.id = runId) = some run ∧
      truthyN run.groupId = some gid ∧
      d.map RecipientOutcome.userId = (studentsOfGroup db gid).map UserRef.id := by
  simp only [notifyActivityPosted] at h
  cases hj : caRunJoin db caId runId with
  | none => simp [hj] at h
  | some t =>
    obtain ⟨ca, a, c, run, g⟩ := t
    simp only [hj] at h
    cases hp : parseTitle a.payload with
    | error e => simp [hp] at h
    | ok an =>
      simp only [hp] at h
      cases hn : truthyS run.name with
      | none => simp [hn] at h
      | some rn =>
        simp only [hn] at h
        cases hg : truthyN run.groupId with
        | none => simp [hg] at h
        | some gid =>
          simp only [hg] at h
          obtain ⟨-, hrun, -⟩ := caRunJoin_eq_some.mp hj
          refine ⟨run, gid, hrun, hg, ?_⟩
          obtain rfl : _ = d := Except.ok.inj h
          simp [List.map_map, notifyOne]

theorem notifyMissedDeadline_inv {db : Db} {env : Env} {caId runId : Nat} {dl : String}
    {o : MissedOutcome} (h : notifyMissedDeadline db env caId runId dl = .ok o) :
    ∃ run gid excluded, db.courseRuns.find? (fun r => r.id = runId) = some run ∧
      truthyN run.groupId = some gid ∧
      o.recipients.map RecipientOutcome.userId =
        ((studentsOfGroup db gid).filter fun s => !(List.contains excluded s.id)).map UserRef.id := by
  simp only [notifyMissedDeadline] at h
  cases hj : caRunJoin db caId runId with
  | none => simp [hj] at h
  | some t =>
    obtain ⟨ca, a, c, run, g⟩ := t
    simp only [hj] at h
    cases hp : parseTitle a.payload with
    | error e => simp [hp] at h
    | ok an =>
      simp only [hp] at h
      cases hn : truthyS run.name with
      | none => simp [hn] at h
      | some rn =>
        simp only [hn] at h
        cases hg : truthyN run.groupId with
        | none => simp [hg] at h
        | some gid =>
          simp only [hg] at h
          obtain ⟨-, hrun, -⟩ := caRunJoin_eq_some.mp hj
          by_cases he : (studentsOfGroup db gid).isEmpty
          · rw [if_pos he] at h
            obtain rfl : _ = o := Except.ok.inj h
            refine ⟨run, gid, [], hrun, hg, ?_⟩
            rw [List.isEmpty_iff.mp he]
            rfl
          · rw [if_neg he] at h
            obtain rfl : _ = o := Except.ok.inj h
            refine ⟨run, gid, submittedIdsFor db a.type a.id runId, hrun, hg, ?_⟩
            simp [List.map_map, notifyOne]

theorem sendManagerDeadlineWarning_inv {db : Db} {env : Env} {caId runId : Nat} {dl : String}
    {d : List RecipientOutcome}
    (h : sendManagerDeadlineWarning db env caId runId dl = .ok d) :
    ∃ ca a c, caJoin db caId = some (ca, a, c) ∧
      d.map RecipientOutcome.userId = (managersOfCourse db c.id).map UserRef.id := by
  simp only [sendManagerDeadlineWarning] at h
  cases hj : caJoin db caId with
  | none => simp [hj] at h
  | some t =>
    obtain ⟨ca, a, c⟩ := t
    simp only [hj] at h
    cases hp : parseTitle a.payload with
    | error e => simp [hp] at h
    | ok an =>
      simp only [hp] at h
      cases hc : truthyN (some c.id) with
      | none => simp [hc] at h
      | some cid =>
        simp only [hc] at h
        obtain rfl : c.id = cid := Option.some.inj (truthyN_eq_some hc)
        cases hn : truthyS ((db.courseRuns.find? fun r => r.id = runId).bind fun r => r.name) with
        | none => simp [hn] at h
        | some rn =>
          simp only [hn] at h
          refine ⟨ca, a, c, rfl, ?_⟩
          by_cases he : (managersOfCourse db c.id).isEmpty
          · rw [if_pos he] at h
            obtain rfl : _ = d := Except.ok.inj h
            rw [List.isEmpty_iff.mp he]
            rfl
          · rw [if_neg he] at h
            obtain rfl : _ = d := Except.ok.inj h
            simp [List.map_map, notifyOne]

theorem notifyFacilitatorPostDeadlineSummary_inv {db : Db} {env : Env}
    {caId runId : Nat} {dl : String} {o : SummaryOutcome}
    (h : notifyFacilitatorPostDeadlineSummary db env caId runId dl = .ok o) :
    ∃ ca a c run g gid, caRunJoin db caId runId = some (ca, a, c, run, g) ∧
      truthyN run.groupId = some gid ∧
      ((studentsOfGroup db gid = [] ∧ o = ⟨none, []⟩) ∨
        (studentsOfGroup db gid ≠ [] ∧
          o.counts = some
            ((((studentsOfGroup db gid).map fun s => s.id).filter fun i =>
                (submittedIdsFor db a.type a.id runId).contains i).length,
             ((studentsOfGroup db gid).map fun s => s.id).length -
              (((studentsOfGroup db gid).map fun s => s.id).filter fun i =>
                (submittedIdsFor db a.type a.id runId).contains i).length) ∧
          o.recipients.map RecipientOutcome.userId =
            (managersOfCourse db c.id).map UserRef.id)) := by
  simp only [notifyFacilitatorPostDeadlineSummary] at h
  cases hj : caRunJoin db caId runId with
  | none => simp [hj] at h
  | some t =>
    obtain ⟨ca, a, c, run, g⟩ := t
    simp only [hj] at h
    cases hp : parseTitle a.payload with
    | error e => simp [hp] at h
    | ok an =>
      simp only [hp] at h
      cases hn : truthyS run.name with
      | none => simp [hn] at h
      | some rn =>
        simp only [hn] at h
        cases hg : truthyN run.groupId with
        | none => simp [hg] at h
        | some gid =>
          simp only [hg] at h
          cases hc : truthyN (some c.id) with
          | none => simp [hc] at h
          | some cid =>
            simp only [hc] at h
            obtain rfl : c.id = cid := Option.some.inj (truthyN_eq_some hc)
            refine ⟨ca, a, c, run, g, gid, rfl, hg, ?_⟩
            by_cases he : ((studentsOfGroup db gid).map fun s => s.id).isEmpty
            · rw [if_pos he] at h
              obtain rfl : _ = o := Except.ok.inj h
              left
              refine ⟨?_, rfl⟩
              have := List.isEmpty_iff.mp he
              exact List.map_eq_nil_iff.mp this
            · rw [if_neg he] at h
              right
              have hne : studentsOfGroup db gid ≠ [] := by
                intro hcon
                exact he (by simp [hcon])
              by_cases hf : (managersOfCourse db c.id).isEmpty
              · rw [if_pos hf] at h
                obtain rfl : _ = o := Except.ok.inj h
                refine ⟨hne, rfl, ?_⟩
                rw [List.isEmpty_iff.mp hf]
                rfl
              · rw [if_neg hf] at h
                obtain rfl : _ = o := Except.ok.inj h
                refine ⟨hne, rfl, ?_⟩
                simp [List.map_map, notifyOne]

theorem notifyNewDocumentAdded_inv {db : Db} {env : Env} {runId : Nat} {docName : String}
    {o : DocOutcome} (h : notifyNewDocumentAdded db env runId docName = .ok o) :
    ∃ run, db.courseRuns.find? (fun r => r.id = runId) = some run ∧
      ∃ gid, truthyN run.groupId = some gid ∧
        o.students.map RecipientOutcome.userId = (studentsOfGroup db gid).map UserRef.id ∧
        o.managers.map RecipientOutcome.userId =
          (managersOfCourse db run.courseId).map UserRef.id := by
  simp only [notifyNewDocumentAdded] at h
  cases hj : (db.courseRuns.find? fun r => r.id = runId).bind
      (fun run => (db.courses.find? fun c => c.id = run.courseId).map fun c => (run, c)) with
  | none => simp [hj] at h
  | some t =>
    obtain ⟨run, c⟩ := t
    simp only [hj] at h
    obtain ⟨run2, hrun2, hmap2⟩ := Option.bind_eq_some.mp hj
    obtain ⟨c2, hc2, heq2⟩ := Option.map_eq_some'.mp hmap2
    simp only [Prod.mk.injEq] at heq2
    obtain ⟨rfl, rfl⟩ := heq2
    cases hg : truthyN run2.groupId with
    | none => simp [hg] at h
    | some gid =>
      simp only [hg] at h
      cases hc : truthyN (some run2.courseId) with
      | none => simp [hc] at h
      | some cid =>
        simp only [hc] at h
        obtain rfl : run2.courseId = cid := Option.some.inj (truthyN_eq_some hc)
        cases hn : truthyS c2.name with
        | none => simp [hn] at h
        | some cn =>
          simp only [hn] at h
          obtain rfl : _ = o := Except.ok.inj h
          exact ⟨run2, hrun2, gid, hg, by simp [List.map_map, notifyOne],
            by simp [List.map_map, notifyOne]⟩

theorem notifyFacilitatorEndOfCourseRunFinalize_inv {db : Db} {env : Env}
    {fmtDate : String → String} {runId : Nat} {d : List RecipientOutcome}
    (h : notifyFacilitatorEndOfCourseRunFinalize db env fmtDate runId = .ok d) :
    ∃ run c, db.courseRuns.find? (fun r => r.id = runId) = some run ∧
      db.courses.find? (fun x => x.id = run.courseId) = some c ∧
      d.map RecipientOutcome.userId = (managersOfCourse db c.id).map UserRef.id := by
  simp only [notifyFacilitatorEndOfCourseRunFinalize] at h
  cases hj : runCourseGroupJoin db runId with
  | none => simp [hj] at h
  | some t =>
    obtain ⟨run, c, g⟩ := t
    simp only [hj] at h
    obtain ⟨run2, hrun2, hb2⟩ := Option.bind_eq_some.mp hj
    obtain ⟨c2, hc2, hmap2⟩ := Option.bind_eq_some.mp hb2
    obtain ⟨g2, hg2, heq2⟩ := Option.map_eq_some'.mp hmap2
    simp only [Prod.mk.injEq] at heq2
    obtain ⟨rfl, rfl, rfl⟩ := heq2
    cases hrn : truthyS run2.name with
    | none => simp [hrn] at h
    | some rn =>
      simp only [hrn] at h
      cases hcn : truthyS c2.name with
      | none => simp [hcn] at h
      | some cn =>
        simp only [hcn] at h
        cases hc : truthyN (some c2.id) with
        | none => simp [hc] at h
        | some cid =>
          simp only [hc] at h
          obtain rfl : c2.id = cid := Option.some.inj (truthyN_eq_some hc)
          refine ⟨run2, c2, hrun2, hc2, ?_⟩
          by_cases he : (managersOfCourse db c2.id).isEmpty
          · rw [if_pos he] at h
            obtain rfl : _ = d := Except.ok.inj h
            rw [List.isEmpty_iff.mp he]
            rfl
          · rw [if_neg he] at h
            obtain rfl : _ = d := Except.ok.inj h
            simp [List.map_map, notifyOne]

/-- C1: For every course run, the recipient set of a run-scoped student
notification (deadline reminder, score published, activity posted, missed
deadline before exclusion, new document student half) is exactly the set of
users with a group-membership row of role student in the run's group, so a
user whose only memberships lie in other groups is never a recipient,
whatever other groups they share with entitled recipients. -/
theorem run_scoped_student_recipients_exact (db : Db) (env : Env)
    (caId runId : Nat) (dl docName : String) (run : RunRow) (gid : Nat)
    (hrun : db.courseRuns.find? (fun r => r.id = runId) = some run)
    (hgid : truthyN run.groupId = some gid) :
    (∀ d, sendStudentDeadlineNotification db env caId runId dl = .ok d →
        d.map RecipientOutcome.userId = (studentsOfGroup db gid).map UserRef.id) ∧
    (∀ d, notifyScorePublished db env caId runId = .ok d →
        d.map RecipientOutcome.userId = (studentsOfGroup db gid).map UserRef.id) ∧
    (∀ d, notifyActivityPosted db env caId runId = .ok d →
        d.map RecipientOutcome.userId = (studentsOfGroup db gid).map UserRef.id) ∧
    (∀ o, notifyNewDocumentAdded db env runId docName = .ok o →
        o.students.map RecipientOutcome.userId = (studentsOfGroup db gid).map UserRef.id) ∧
    (∀ o, notifyMissedDeadline db env caId runId dl = .ok o → ∃ excluded,
        o.recipients.map RecipientOutcome.userId =
          ((studentsOfGroup db gid).filter fun s => !(List.contains excluded s.id)).map
            UserRef.id) ∧
    (∀ uid, uid ∈ (studentsOfGroup db gid).map UserRef.id ↔
        ∃ gm ∈ db.groupMembers, gm.groupId = gid ∧ gm.role = "student" ∧ gm.userId = uid ∧
          ∃ u ∈ db.users, u.id = uid) := by
  refine ⟨?_, ?_, ?_, ?_, ?_, fun uid => mem_studentsOfGroup db gid uid⟩
  · intro d hd
    obtain ⟨gid', hg', heq⟩ := sendStudentDeadline_inv hd
    rw [hrun] at hg'
    simp only [Option.some_bind] at hg'
    obtain rfl : gid = gid' := Option.some.inj (hgid.symm.trans hg')
    exact heq
  · intro d hd
    obtain ⟨run', gid', hrun', hg', heq⟩ := notifyScorePublished_inv hd
    obtain rfl : run = run' := Option.some.inj (hrun.symm.trans hrun')
    obtain rfl : gid = gid' := Option.some.inj (hgid.symm.trans hg')
    exact heq
  · intro d hd
    obtain ⟨run', gid', hrun', hg', heq⟩ := notifyActivityPosted_inv hd
    obtain rfl : run = run' := Option.some.inj (hrun.symm.trans hrun')
    obtain rfl : gid = gid' := Option.some.inj (hgid.symm.trans hg')
    exact heq
  · intro o ho
    obtain ⟨run', hrun', gid', hg', heqS, heqM⟩ := notifyNewDocumentAdded_inv ho
    obtain rfl : run = run' := Option.some.inj (hrun.symm.trans hrun')
    obtain rfl : gid = gid' := Option.some.inj (hgid.symm.trans hg')
    exact heqS
  · intro o ho
    obtain ⟨run', gid', excluded, hrun', hg', heq⟩ := notifyMissedDeadline_inv ho
    obtain rfl : run = run' := Option.some.inj (hrun.symm.trans hrun')
    obtain rfl : gid = gid' := Option.some.inj (hgid.symm.trans hg')
    exact ⟨excluded, heq⟩

/-- C2: For every course, the recipient set of a course-scoped manager
notification (manager deadline warning, facilitator post-deadline summary,
new document manager half, course-run finalize) is exactly the set of users
with a course_managers row for that course (the summary dispatches nothing at
all when the run's student set is empty), so a user who manages only other
courses is never a recipient. -/
theorem course_scoped_manager_recipients_exact (db : Db) (env : Env)
    (fmtDate : String → String) (caId runId : Nat) (dl docName : String)
    (ca : CourseActivityRow) (a : ActivityRow) (c : CourseRow) (run : RunRow)
    (hca : caJoin db caId = some (ca, a, c))
    (hrun : db.courseRuns.find? (fun r => r.id = runId) = some run) :
    (∀ d, sendManagerDeadlineWarning db env caId runId dl = .ok d →
        d.map RecipientOutcome.userId = (managersOfCourse db c.id).map UserRef.id) ∧
    (∀ o, notifyFacilitatorPostDeadlineSummary db env caId runId dl = .ok o →
        o.recipients.map RecipientOutcome.userId = (managersOfCourse db c.id).map UserRef.id ∨
          o.recipients = []) ∧
    (∀ o, notifyNewDocumentAdded db env runId docName = .ok o →
        o.managers.map RecipientOutcome.userId =
          (managersOfCourse db run.courseId).map UserRef.id) ∧
    (∀ d, notifyFacilitatorEndOfCourseRunFinalize db env fmtDate runId = .ok d →
        d.map RecipientOutcome.userId = (managersOfCourse db run.courseId).map UserRef.id) ∧
    (∀ cid uid, uid ∈ (managersOfCourse db cid).map UserRef.id ↔
        ∃ cm ∈ db.courseManagers, cm.courseId = cid ∧ cm.userId = uid ∧
          ∃ u ∈ db.users, u.id = uid) := by
  refine ⟨?_, ?_, ?_, ?_, fun cid uid => mem_managersOfCourse db cid uid⟩
  · intro d hd
    obtain ⟨ca', a', c', hca', heq⟩ := sendManagerDeadlineWarning_inv hd
    obtain ⟨rfl, rfl, rfl⟩ : ca = ca' ∧ a = a' ∧ c = c' := by
      have := Option.some.inj (hca.symm.trans hca')
      simp only [Prod.mk.injEq] at this
      exact ⟨this.1, this.2.1, this.2.2⟩
    exact heq
  · intro o ho
    obtain ⟨ca', a', c', run', g', gid', hj', hg', hcase⟩ :=
      notifyFacilitatorPostDeadlineSummary_inv ho
    obtain ⟨hca', -, -⟩ := caRunJoin_eq_some.mp hj'
    obtain ⟨rfl, rfl, rfl⟩ : ca = ca' ∧ a = a' ∧ c = c' := by
      have := Option.some.inj (hca.symm.trans hca')
      simp only [Prod.mk.injEq] at this
      exact ⟨this.1, this.2.1, this.2.2⟩
    rcases hcase with ⟨-, rfl⟩ | ⟨-, -, heq⟩
    · right; rfl
    · left; exact heq
  · intro o ho
    obtain ⟨run', hrun', gid', hg', heqS, heqM⟩ := notifyNewDocumentAdded_inv ho
    obtain rfl : run = run' := Option.some.inj (hrun.symm.trans hrun')
    exact heqM
  · intro d hd
    obtain ⟨run', c', hrun', hc', heq⟩ := notifyFacilitatorEndOfCourseRunFinalize_inv hd
    obtain rfl : run = run' := Option.some.inj (hrun.symm.trans hrun')
    have hcid : c'.id = run.courseId := by
      have := List.find?_some hc'
      simpa using this
    rw [heq, hcid]

/-- C6: The resolution join of the run-scoped fire tasks constrains the run
only by its own id — no hypothesis below relates the run's course id to the
course-activity's course id, yet once the course-activity (with a titled
payload) and the run (with a name and an existing group) exist, score
published, activity posted and missed deadline all resolve successfully and
fan out to the students of the run's group. -/
theorem run_course_mismatch_still_resolves (db : Db) (env : Env)
    (caId runId : Nat) (dl : String)
    (ca : CourseActivityRow) (a : ActivityRow) (c : CourseRow) (run : RunRow)
    (g : GroupRow) (an rn : String) (gid : Nat)
    (hca : caJoin db caId = some (ca, a, c))
    (htitle : parseTitle a.payload = .ok an)
    (hrun : db.courseRuns.find? (fun r => r.id = runId) = some run)
    (hname : truthyS run.name = some rn)
    (hgid : truthyN run.groupId = some gid)
    (hgrp : db.groups.find? (fun g2 => g2.id = gid) = some g) :
    (∃ d, notifyScorePublished db env caId runId = .ok d ∧
        d.map RecipientOutcome.userId = (studentsOfGroup db gid).map UserRef.id) ∧
    (∃ d, notifyActivityPosted db env caId runId = .ok d ∧
        d.map RecipientOutcome.userId = (studentsOfGroup db gid).map UserRef.id) ∧
    (∃ o, notifyMissedDeadline db env caId runId dl = .ok o ∧ ∃ excluded,
        o.recipients.map RecipientOutcome.userId =
          ((studentsOfGroup db gid).filter fun s => !(List.contains excluded s.id)).map
            UserRef.id) := by
  have hj : caRunJoin db caId runId = some (ca, a, c, run, g) := by
    refine caRunJoin_eq_some.mpr ⟨hca, hrun, ?_⟩
    rw [truthyN_eq_some hgid]
    simpa using hgrp
  refine ⟨?_, ?_, ?_⟩
  · have hok : ∃ d, notifyScorePublished db env caId runId = .ok d := by
      simp only [notifyScorePublished, hj, htitle, hname, hgid]
      split
      · exact ⟨_, rfl⟩
      · exact ⟨_, rfl⟩
    obtain ⟨d, hd⟩ := hok
    obtain ⟨run', gid', hrun', hg', heq⟩ := notifyScorePublished_inv hd
    obtain rfl : run = run' := Option.some.inj (hrun.symm.trans hrun')
    obtain rfl : gid = gid' := Option.some.inj (hgid.symm.trans hg')
    exact ⟨d, hd, heq⟩
  · have hok : ∃ d, notifyActivityPosted db env caId runId = .ok d := by
      simp only [notifyActivityPosted, hj, htitle, hname, hgid]
      exact ⟨_, rfl⟩
    obtain ⟨d, hd⟩ := hok
    obtain ⟨run', gid', hrun', hg', heq⟩ := notifyActivityPosted_inv hd
    obtain rfl : run = run' := Option.some.inj (hrun.symm.trans hrun')
    obtain rfl : gid = gid' := Option.some.inj (hgid.symm.trans hg')
    exact ⟨d, hd, heq⟩
  · have hok : ∃ o, notifyMissedDeadline db env caId runId dl = .ok o := by
      simp only [notifyMissedDeadline, hj, htitle, hname, hgid]
      split
      · exact ⟨_, rfl⟩
      · exact ⟨_, rfl⟩
    obtain ⟨o, ho⟩ := hok
    obtain ⟨run', gid', excluded, hrun', hg', heq⟩ := notifyMissedDeadline_inv ho
    obtain rfl : run = run' := Option.some.inj (hrun.symm.trans hrun')
    obtain rfl : gid = gid' := Option.some.inj (hgid.symm.trans hg')
    exact ⟨o, ho, excluded, heq⟩

/-- C9: Every schedule-phase deadline task (student reminder, manager warning,
missed deadline, post-deadline summary), applied to an existing activity whose
(non-empty) type is none of quiz, assignment and exam, completes successfully
as a no-op: ok with no future fire task registered. -/
theorem schedule_skips_non_graded_types (db : Db) (fmtIST : String → String)
    (caId runId : Nat) (dl : String) (ca : CourseActivityRow) (a : ActivityRow)
    (hca : db.courseActivities.find? (fun x => x.id = caId) = some ca)
    (ha : db.activities.find? (fun x => x.id = ca.activityId) = some a)
    (hq : a.type ≠ "quiz") (hass : a.type ≠ "assignment") (hex : a.type ≠ "exam")
    (hne : a.type ≠ "") :
    scheduleStudentDeadlineNotification db fmtIST caId runId dl = .ok none ∧
    scheduleManagerDeadlineWarning db fmtIST caId runId dl = .ok none ∧
    scheduleNotifyMissedDeadline db fmtIST caId runId dl = .ok none ∧
    scheduleNotifyFacilitatorPostDeadlineSummary db fmtIST caId runId dl = .ok none := by
  have hgate : isGradedType a.type = false := by
    simp [isGradedType, hq, hass, hex]
  have htr : truthyS (some a.type) = some a.type := by
    simp [truthyS, hne]
  refine ⟨?_, ?_, ?_, ?_⟩
  · simp [scheduleStudentDeadlineNotification, hca, ha, hgate]
  · simp [scheduleManagerDeadlineWarning, hca, ha, hgate]
  · simp [scheduleNotifyMissedDeadline, hca, ha, htr, hgate]
  · simp [scheduleNotifyFacilitatorPostDeadlineSummary, hca, ha, htr, hgate]

/-- C10: A notify-missed-deadline invocation whose resolved group has zero
student memberships completes successfully with zero recipients and with no
submission-table query issued; a manager deadline warning, a post-deadline
summary and a course-run finalize on a course with zero managers complete
successfully with zero recipients — none of these conditions is an error. -/
theorem empty_recipient_short_circuits (db : Db) (env : Env)
    (fmtDate : String → String) (caIdA runIdA caIdB runIdB runIdC : Nat) (dl : String)
    (caA : CourseActivityRow) (aA : ActivityRow) (cA : CourseRow) (runA : RunRow)
    (gA : GroupRow) (anA rnA : String) (gidA : Nat)
    (caB : CourseActivityRow) (aB : ActivityRow) (cB : CourseRow) (anB rnB : String)
    (runC : RunRow) (cC : CourseRow) (gC : GroupRow) (rnC cnC : String)
    (hjA : caRunJoin db caIdA runIdA = some (caA, aA, cA, runA, gA))
    (htA : parseTitle aA.payload = .ok anA)
    (hnA : truthyS runA.name = some rnA)
    (hgA : truthyN runA.groupId = some gidA)
    (hcidA : truthyN (some cA.id) = some cA.id)
    (hstud : studentsOfGroup db gidA = [])
    (hcaB : caJoin db caIdB = some (caB, aB, cB))
    (htB : parseTitle aB.payload = .ok anB)
    (hcidB : truthyN (some cB.id) = some cB.id)
    (hnB : truthyS ((db.courseRuns.find? fun r => r.id = runIdB).bind fun r => r.name)
      = some rnB)
    (hmgrB : managersOfCourse db cB.id = [])
    (hjC : runCourseGroupJoin db runIdC = some (runC, cC, gC))
    (hnC : truthyS runC.name = some rnC)
    (hcnC : truthyS cC.name = some cnC)
    (hcidC : truthyN (some cC.id) = some cC.id)
    (hmgrC : managersOfCourse db cC.id = []) :
    notifyMissedDeadline db env caIdA runIdA dl =
      .ok { submissionQueried := false, recipients := [] } ∧
    notifyFacilitatorPostDeadlineSummary db env caIdA runIdA dl =
      .ok { counts := none, recipients := [] } ∧
    sendManagerDeadlineWarning db env caIdB runIdB dl = .ok [] ∧
    notifyFacilitatorEndOfCourseRunFinalize db env fmtDate runIdC = .ok [] := by
  refine ⟨?_, ?_, ?_, ?_⟩
  · simp [notifyMissedDeadline, hjA, htA, hnA, hgA, hstud]
  · simp [notifyFacilitatorPostDeadlineSummary, hjA, htA, hnA, hgA, hcidA, hstud]
  · simp [sendManagerDeadlineWarning, hcaB, htB, hcidB, hnB, hmgrB]
  · simp [notifyFacilitatorEndOfCourseRunFinalize, hjC, hnC, hcnC, hcidC, hmgrC]

/-- C7: For every fan-out, which recipients are notified, the push payload and
the mail handed to the gateway for each of them, and whether the invocation
succeeds are all independent of the per-recipient delivery outcomes (the Env):
a push or email failure for any recipient changes only that attempt's settled
flag, never the other channel, another recipient, or the invocation result —
both channels are attempted for every recipient under every Env. -/
theorem per_recipient_delivery_isolation (db : Db) (env1 env2 : Env)
    (fmtIST fmtDate : String → String) (caId runId frunId gId : Nat)
    (uid dl docName nd : String) :
    contentOf (sendStudentDeadlineNotification db env1 caId runId dl) =
      contentOf (sendStudentDeadlineNotification db env2 caId runId dl) ∧
    contentOf (sendManagerDeadlineWarning db env1 caId runId dl) =
      contentOf (sendManagerDeadlineWarning db env2 caId runId dl) ∧
    contentOf (notifyScorePublished db env1 caId runId) =
      contentOf (notifyScorePublished db env2 caId runId) ∧
    contentOf (notifyActivityPosted db env1 caId runId) =
      contentOf (notifyActivityPosted db env2 caId runId) ∧
    contentOf (notifyRedoEnabled db env1 fmtIST uid caId nd runId) =
      contentOf (notifyRedoEnabled db env2 fmtIST uid caId nd runId) ∧
    contentOf (notifyStudentOnAddedToGroup db env1 uid gId) =
      contentOf (notifyStudentOnAddedToGroup db env2 uid gId) ∧
    Except.map (fun o => (o.students.map RecipientOutcome.content,
        o.managers.map RecipientOutcome.content))
      (notifyNewDocumentAdded db env1 runId docName) =
    Except.map (fun o => (o.students.map RecipientOutcome.content,
        o.managers.map RecipientOutcome.content))
      (notifyNewDocumentAdded db env2 runId docName) ∧
    Except.map (fun o => (o.submissionQueried, o.recipients.map RecipientOutcome.content))
      (notifyMissedDeadline db env1 caId runId dl) =
    Except.map (fun o => (o.submissionQueried, o.recipients.map RecipientOutcome.content))
      (notifyMissedDeadline db env2 caId runId dl) ∧
    Except.map (fun o => (o.counts, o.recipients.map RecipientOutcome.content))
      (notifyFacilitatorPostDeadlineSummary db env1 caId runId dl) =
    Except.map (fun o => (o.counts, o.recipients.map RecipientOutcome.content))
      (notifyFacilitatorPostDeadlineSummary db env2 caId runId dl) ∧
    contentOf (notifyFacilitatorEndOfCourseRunFinalize db env1 fmtDate frunId) =
      contentOf (notifyFacilitatorEndOfCourseRunFinalize db env2 fmtDate frunId) := by
  refine ⟨?_, ?_, ?_, ?_, ?_, ?_, ?_, ?_, ?_, ?_⟩ <;>
    (simp only [sendStudentDeadlineNotification, sendManagerDeadlineWarning,
       notifyScorePublished, notifyActivityPosted, notifyRedoEnabled,
       notifyStudentOnAddedToGroup, notifyNewDocumentAdded, notifyMissedDeadline,
       notifyFacilitatorPostDeadlineSummary, notifyFacilitatorEndOfCourseRunFinalize]
     repeat' split
     all_goals simp only [contentOf, Except.map, List.map_map]
     all_goals rfl)

/-- C3: code behaviour at the failing input.  In dbQ the only group student s1
has exactly one quiz record, an attempt whose completed_at is null; the claim
and the design note require such a student to be notified, but the quiz branch
of the submitted-id query carries no completed_at filter, so the dispatch
counts the incomplete attempt as a submission and notifies nobody. -/
theorem quiz_incomplete_attempt_suppresses_missed_deadline :
    (studentsOfGroup dbQ 1).map UserRef.id = ["s1"] ∧
    (dbQ.quizAttempts.all fun qa => qa.completedAt = none) = true ∧
    submittedIdsFor dbQ "quiz" 10 1 = ["s1"] ∧
    notifyMissedDeadline dbQ envOk 5 1 "dl" =
      .ok { submissionQueried := true, recipients := [] } := by
  refine ⟨rfl, by decide, rfl, rfl⟩

/-- C4: code behaviour at the failing input.  The mail handed to the email
gateway for the deadline-reminder recipient carries the template's subject
and, as its body, the template's heading; the template's subheading and body
never reach the gateway, because every call site passes five arguments to the
three-parameter sendEmailNotification and the trailing two are dropped. -/
theorem email_gateway_receives_subject_and_heading_only :
    Except.map (List.map fun r => r.email)
        (sendStudentDeadlineNotification dbQ envOk 5 1 "June 1") =
      .ok [some { toAddr := "sam@example.com",
                  subject := (emailTemplates.deadlineSoon "Quiz 1" "Run 1" "June 1").subject,
                  body := (emailTemplates.deadlineSoon "Quiz 1" "Run 1" "June 1").heading }] ∧
    (emailTemplates.deadlineSoon "Quiz 1" "Run 1" "June 1").heading ≠
      (emailTemplates.deadlineSoon "Quiz 1" "Run 1" "June 1").body ∧
    (emailTemplates.deadlineSoon "Quiz 1" "Run 1" "June 1").heading ≠
      (emailTemplates.deadlineSoon "Quiz 1" "Run 1" "June 1").subheading := by
  refine ⟨rfl, by decide, by decide⟩

/-- C5 counterexample: with no course-activity row 99 in dbQ the redo-enabled
invocation hits a resolution failure (missing activity context) yet completes
successfully as a logged no-op with no dispatch, instead of surfacing a task
failure — refuting the claim that every resolution failure aborts with an
error. -/
theorem redoEnabled_missing_activity_is_silent_noop :
    dbQ.courseActivities.find? (fun ca => ca.id = 99) = none ∧
    notifyRedoEnabled dbQ envOk fmtId "s1" 99 "2025-01-01" 1 = .ok [] := ⟨rfl, rfl⟩

/-- C5 (amended): whenever context resolution fails — missing activity join,
malformed payload or missing title, missing run group or run name, missing
user, missing group, missing run-course join — the invocation aborts with a
task failure carrying no dispatch; the one exception, forced by the
counterexample, is the redo-enabled kind, whose missing course-activity (or
course) row is logged and swallowed into a successful no-op, while its later
resolution failures still abort. -/
theorem resolution_failures_abort (db : Db) (env : Env)
    (fmtIST fmtDate : String → String) (caId runId gId : Nat)
    (uid dl docName nd : String) :
    ((db.courseActivities.find? fun x => x.id = caId) = none →
      notifyRedoEnabled db env fmtIST uid caId nd runId = .ok []) ∧
    (caJoin db caId = none →
      (sendStudentDeadlineNotification db env caId runId dl).isOk = false ∧
      (sendManagerDeadlineWarning db env caId runId dl).isOk = false) ∧
    (∀ ca a c e, caJoin db caId = some (ca, a, c) → parseTitle a.payload = .error e →
      (sendStudentDeadlineNotification db env caId runId dl).isOk = false ∧
      (sendManagerDeadlineWarning db env caId runId dl).isOk = false) ∧
    (∀ ca a c an, caJoin db caId = some (ca, a, c) → parseTitle a.payload = .ok an →
      truthyN ((db.courseRuns.find? fun r => r.id = runId).bind fun r => r.groupId) = none →
      (sendStudentDeadlineNotification db env caId runId dl).isOk = false) ∧
    (∀ ca a c an gid, caJoin db caId = some (ca, a, c) → parseTitle a.payload = .ok an →
      truthyN ((db.courseRuns.find? fun r => r.id = runId).bind fun r => r.groupId)
        = some gid →
      truthyS ((db.courseRuns.find? fun r => r.id = runId).bind fun r => r.name) = none →
      (sendStudentDeadlineNotification db env caId runId dl).isOk = false) ∧
    (caRunJoin db caId runId = none →
      (notifyScorePublished db env caId runId).isOk = false ∧
      (notifyActivityPosted db env caId runId).isOk = false ∧
      (notifyMissedDeadline db env caId runId dl).isOk = false ∧
      (notifyFacilitatorPostDeadlineSummary db env caId runId dl).isOk = false) ∧
    ((db.users.find? fun u => u.id = uid) = none →
      (notifyStudentOnAddedToGroup db env uid gId).isOk = false) ∧
    (∀ student, (db.users.find? fun u => u.id = uid) = some student →
      (db.groups.find? fun g => g.id = gId) = none →
      (notifyStudentOnAddedToGroup db env uid gId).isOk = false) ∧
    (∀ ca0 c0, (db.courseActivities.find? fun x => x.id = caId).bind
        (fun x => (db.courses.find? fun y => y.id = x.courseId).map fun y => (x, y))
          = some (ca0, c0) →
      caJoin db caId = none →
      (notifyRedoEnabled db env fmtIST uid caId nd runId).isOk = false) ∧
    (∀ ca0 c0 ca a c an cn, (db.courseActivities.find? fun x => x.id = caId).bind
        (fun x => (db.courses.find? fun y => y.id = x.courseId).map fun y => (x, y))
          = some (ca0, c0) →
      caJoin db caId = some (ca, a, c) → parseTitle a.payload = .ok an →
      truthyS c.name = some cn →
      truthyS ((db.users.find? fun u => u.id = uid).bind fun u => u.name) = none →
      (notifyRedoEnabled db env fmtIST uid caId nd runId).isOk = false) ∧
    ((db.courseRuns.find? fun r => r.id = runId).bind
        (fun run => (db.courses.find? fun c => c.id = run.courseId).map fun c => (run, c))
          = none →
      (notifyNewDocumentAdded db env runId docName).isOk = false) ∧
    (runCourseGroupJoin db runId = none →
      (notifyFacilitatorEndOfCourseRunFinalize db env fmtDate runId).isOk = false) := by
  refine ⟨?_, ?_, ?_, ?_, ?_, ?_, ?_, ?_, ?_, ?_, ?_, ?_⟩
  · intro h
    simp [notifyRedoEnabled, h]
  · intro h
    constructor <;> simp [sendStudentDeadlineNotification, sendManagerDeadlineWarning, h,
      Except.isOk, Except.toBool]
  · intro ca a c e hca hp
    constructor <;> simp [sendStudentDeadlineNotification, sendManagerDeadlineWarning,
      hca, hp, Except.isOk, Except.toBool]
  · intro ca a c an hca hp hg
    simp [sendStudentDeadlineNotification, hca, hp, hg, Except.isOk, Except.toBool]
  · intro ca a c an gid hca hp hg hn
    simp [sendStudentDeadlineNotification, hca, hp, hg, hn, Except.isOk, Except.toBool]
  · intro h
    refine ⟨?_, ?_, ?_, ?_⟩ <;> simp [notifyScorePublished, notifyActivityPosted,
      notifyMissedDeadline, notifyFacilitatorPostDeadlineSummary, h, Except.isOk, Except.toBool]
  · intro h
    simp [notifyStudentOnAddedToGroup, h, Except.isOk, Except.toBool]
  · intro student hs h
    simp [notifyStudentOnAddedToGroup, hs, h, Except.isOk, Except.toBool]
  · intro ca0 c0 h0 hca
    simp [notifyRedoEnabled, h0, hca, Except.isOk, Except.toBool]
  · intro ca0 c0 ca a c an cn h0 hca hp hcn hu
    simp [notifyRedoEnabled, h0, hca, hp, hcn, hu, Except.isOk, Except.toBool]
  · intro h
    simp [notifyNewDocumentAdded, h, Except.isOk, Except.toBool]
  · intro h
    simp [notifyFacilitatorEndOfCourseRunFinalize, h, Except.isOk, Except.toBool]

/-- C8 counterexample: in dbS the group holds two students and the
submitted-id set for the (activity, run) pair holds two user ids, one of them
outside the group; the dispatched notSubmitted count is 1, but the claim's
formula |student set| − |submitted-id set| gives 2 − 2 = 0 — so the counts
are not computed as the claim states. -/
theorem summary_counts_counterexample :
    notifyFacilitatorPostDeadlineSummary dbS envOk 7 3 "dl" =
      .ok { counts := some (1, 1), recipients := [] } ∧
    (studentsOfGroup dbS 1).length = 2 ∧
    (submittedIdsFor dbS "assignment" 20 3).length = 2 ∧
    (1 : Nat) ≠ 2 - 2 := by
  refine ⟨rfl, rfl, rfl, by decide⟩

/-- C8 (amended): for a facilitator post-deadline summary dispatch with a
non-empty student set, submittedCount is the number of group-student ids that
occur in the submitted-id set, notSubmittedCount is |student set| minus that
intersection count (not minus |submitted-id set|, which may name users outside
the group), and the recipient set is exactly the managers of the activity's
course, unaffected by the counts. -/
theorem summary_counts_and_manager_recipients (db : Db) (env : Env)
    (caId runId : Nat) (dl : String)
    (ca : CourseActivityRow) (a : ActivityRow) (c : CourseRow) (run : RunRow)
    (g : GroupRow) (gid : Nat) (o : SummaryOutcome)
    (hj : caRunJoin db caId runId = some (ca, a, c, run, g))
    (hgid : truthyN run.groupId = some gid)
    (hstud : studentsOfGroup db gid ≠ [])
    (ho : notifyFacilitatorPostDeadlineSummary db env caId runId dl = .ok o) :
    o.counts = some
      ((((studentsOfGroup db gid).map fun s => s.id).filter fun i =>
          (submittedIdsFor db a.type a.id runId).contains i).length,
       (studentsOfGroup db gid).length -
        (((studentsOfGroup db gid).map fun s => s.id).filter fun i =>
          (submittedIdsFor db a.type a.id runId).contains i).length) ∧
    o.recipients.map RecipientOutcome.userId = (managersOfCourse db c.id).map UserRef.id := by
  obtain ⟨ca', a', c', run', g', gid', hj', hg', hcase⟩ :=
    notifyFacilitatorPostDeadlineSummary_inv ho
  obtain ⟨rfl, rfl, rfl, rfl, rfl⟩ : ca = ca' ∧ a = a' ∧ c = c' ∧ run = run' ∧ g = g' := by
    have := Option.some.inj (hj.symm.trans hj')
    simp only [Prod.mk.injEq] at this
    exact ⟨this.1, this.2.1, this.2.2.1, this.2.2.2.1, this.2.2.2.2⟩
  obtain rfl : gid = gid' := Option.some.inj (hgid.symm.trans hg')
  rcases hcase with ⟨hnil, -⟩ | ⟨-, hcounts, heq⟩
  · exact absurd hnil hstud
  · refine ⟨?_, heq⟩
    rw [hcounts]
    simp [List.length_map]

/-- Witness for C1 at the concrete fixture: run 1 resolves to group 1 and the
membership characterization holds for u1. -/
theorem run_scoped_student_recipients_exact_witness :
    "u1" ∈ (studentsOfGroup dbW 1).map UserRef.id ↔
      ∃ gm ∈ dbW.groupMembers, gm.groupId = 1 ∧ gm.role = "student" ∧ gm.userId = "u1" ∧
        ∃ u ∈ dbW.users, u.id = "u1" :=
  (run_scoped_student_recipients_exact dbW envOk 5 1 "dl" "doc" runW1 1
    (by decide) (by decide)).2.2.2.2.2 "u1"

/-- Witness for C2 at the concrete fixture: course-activity 5 resolves to
course 1 and the manager characterization holds for m1. -/
theorem course_scoped_manager_recipients_exact_witness :
    "m1" ∈ (managersOfCourse dbW 1).map UserRef.id ↔
      ∃ cm ∈ dbW.courseManagers, cm.courseId = 1 ∧ cm.userId = "m1" ∧
        ∃ u ∈ dbW.users, u.id = "m1" :=
  (course_scoped_manager_recipients_exact dbW envOk fmtId 5 1 "dl" "doc"
    caW5 aW10 cW1 runW1 (by decide) (by decide)).2.2.2.2 1 "m1"

/-- Witness for C6 at the concrete fixture: run 1 carries course 2 while
course-activity 5 carries course 1, and score published still resolves and
fans out to group 1's students. -/
theorem run_course_mismatch_still_resolves_witness :
    runW1.courseId ≠ caW5.courseId ∧
    (∃ d, notifyScorePublished dbW envOk 5 1 = .ok d ∧
        d.map RecipientOutcome.userId = (studentsOfGroup dbW 1).map UserRef.id) :=
  ⟨by decide,
   (run_course_mismatch_still_resolves dbW envOk 5 1 "dl" caW5 aW10 cW1 runW1 gW1
      "Essay 1" "Run 1" 1 (by decide) (by rfl) (by decide) (by decide) (by decide)
      (by decide)).1⟩

/-- Witness for C9 at the concrete fixture: course-activity 6 is an article,
and all four schedule tasks complete as no-ops. -/
theorem schedule_skips_non_graded_types_witness :
    scheduleStudentDeadlineNotification dbW fmtId 6 1 "dl" = .ok none ∧
    scheduleManagerDeadlineWarning dbW fmtId 6 1 "dl" = .ok none ∧
    scheduleNotifyMissedDeadline dbW fmtId 6 1 "dl" = .ok none ∧
    scheduleNotifyFacilitatorPostDeadlineSummary dbW fmtId 6 1 "dl" = .ok none :=
  schedule_skips_non_graded_types dbW fmtId 6 1 "dl" caW6 aW11
    (by decide) (by decide) (by decide) (by decide) (by decide) (by decide)

/-- Witness for C10 at the concrete fixture: run 9's group is empty and course
3 has no managers, and all four invocations complete with zero recipients. -/
theorem empty_recipient_short_circuits_witness :
    notifyMissedDeadline dbW envOk 7 9 "dl" =
      .ok { submissionQueried := false, recipients := [] } ∧
    notifyFacilitatorPostDeadlineSummary dbW envOk 7 9 "dl" =
      .ok { counts := none, recipients := [] } ∧
    sendManagerDeadlineWarning dbW envOk 8 9 "dl" = .ok [] ∧
    notifyFacilitatorEndOfCourseRunFinalize dbW envOk fmtId 9 = .ok [] :=
  empty_recipient_short_circuits dbW envOk fmtId 7 9 8 9 9 "dl"
    caW7 aW12 cW3 runW9 gW9 "Quiz 9" "Run 9" 9
    caW8 aW10 cW3 "Essay 1" "Run 9"
    runW9 cW3 gW9 "Run 9" "Orphan"
    (by decide) (by rfl) (by decide) (by decide) (by decide) (by decide)
    (by decide) (by rfl) (by decide) (by decide) (by decide)
    (by decide) (by decide) (by decide) (by decide) (by decide)

/-- Witness for C8 at the concrete fixture dbS: the dispatched counts are
(1, 1) — the intersection count, not 2 − |submitted set| — and the recipient
list equals the (here empty) manager set of course 3. -/
theorem summary_counts_and_manager_recipients_witness :
    (some (1, 1) : Option (Nat × Nat)) = some
      ((((studentsOfGroup dbS 1).map fun s => s.id).filter fun i =>
          (submittedIdsFor dbS "assignment" 20 3).contains i).length,
       (studentsOfGroup dbS 1).length -
        (((studentsOfGroup dbS 1).map fun s => s.id).filter fun i =>
          (submittedIdsFor dbS "assignment" 20 3).contains i).length) ∧
    ([] : List RecipientOutcome).map RecipientOutcome.userId =
      (managersOfCourse dbS 3).map UserRef.id :=
  summary_counts_and_manager_recipients dbS envOk 7 3 "dl"
    ⟨7, 20, 3⟩ ⟨20, "assignment", .parsed (some "HW")⟩ ⟨3, some "C3"⟩
    ⟨3, some "Run 3", 3, some 1, none⟩ ⟨1, some "G1"⟩ 1 ⟨some (1, 1), []⟩
    (by decide) (by decide) (by decide) (by rfl)
